import Mathlib

/-!
Shallow embedding of `src/vlist.js` (a virtually-rendered scrollable list)
and proofs of the specified properties of its windowing engine.

Modelling conventions:
* DOM row elements are `RowElem` records: logical index, pixel top offset,
  the `display: none` flag (`hidden`) and the `data-rm="1"` attribute (`dataRm`).
* The container's child list is the scroller spacer (child 0, kept separately
  as `scrollerHeight`) followed by `rows : List RowElem`.
* An issued `getNodes(from, count, cb)` call is recorded as the pair
  `(from, count)` in an issue-order fetch log; the outstanding (not yet
  completed) fetches are the list `inFlight` of their `from` arguments.
  A completion event consumes the oldest outstanding fetch and supplies the
  data source's `items` (only their number matters for the engine) and the
  new total row count.
* Machine integers are `Nat`/`Int`; `parseInt(x / y)` on non-negative values
  is `Nat` division; `Math.ceil(h / itemHeight)` is ceiling division.
* Style strings such as `style.height = v + 'px'` keep only the numeric
  value `v` where the claims are numeric; the width/height config strings of
  lines 33-34 are embedded literally as strings (`jsDimStyle`), including
  JavaScript's `undefined + 'px'` coercion and `||` falsiness.
-/

namespace VList

/-- Ceiling division on naturals: `Math.ceil(a / b)` for a positive `b`. -/
def ceilDiv (a b : Nat) : Nat := (a + b - 1) / b

/-- Absolute difference on naturals: `Math.abs(a - b)` for non-negative numbers. -/
def absDiff (a b : Nat) : Nat := if a ≤ b then b - a else a - b

/-- JavaScript string coercion of a possibly-`undefined` number. -/
def jsToString : Option Nat → String
  | none => "undefined"
  | some n => toString n

/-- Lines 33-34: `(config && config.w + 'px') || '100%'` for a present
`config` object whose `w` (resp. `h`) field may be `undefined`.  The `&&`
yields `config.w + 'px'` (string concatenation with `undefined` coercion),
and `||` falls back to `'100%'` only when that string is falsy (empty). -/
def jsDimStyle (v : Option Nat) : String :=
  let s := jsToString v ++ "px"
  if s = "" then "100%" else s

/-- Truthiness test of the JavaScript variable `lastRepaintY`
(`undefined` and `0` are falsy): line 74's `!lastRepaintY`. -/
def jsFalsy : Option Nat → Bool
  | none => true
  | some n => n == 0

/-- One mounted row element (a child of the container other than the
scroller spacer). -/
structure RowElem where
  index : Nat
  top : Nat
  hidden : Bool
  dataRm : Bool
deriving DecidableEq

/-- The instance state touched by `_renderChunk` / `updateTotalRows`:
fields of `this` plus the container's row children and the scroller height. -/
structure VListState where
  itemHeight : Nat
  cachedItemsLen : Nat
  loading : Bool
  nextChunk : Option Nat
  totalRows : Nat
  scrollerHeight : Nat
  rows : List RowElem
  inFlight : List Nat
deriving DecidableEq

/-- Lines 147-150, `VirtualList.prototype.updateTotalRows`:
store `totalRows` and set the scroller height to `itemHeight * totalRows`. -/
def updateTotalRows (s : VListState) (totalRows : Nat) : VListState :=
  { s with totalRows := totalRows, scrollerHeight := s.itemHeight * totalRows }

/-- Lines 88-94, `VirtualList.prototype.createRow`: the generated element
positioned absolutely at `i * itemHeight`, freshly visible and unmarked. -/
def createRow (s : VListState) (i : Nat) : RowElem :=
  { index := i, top := i * s.itemHeight, hidden := false, dataRm := false }

/-- Lines 133-136: hide a mounted element and set `data-rm="1"` on it. -/
def markObsolete (r : RowElem) : RowElem := { r with hidden := true, dataRm := true }

/-- Lines 106-145, `VirtualList.prototype._renderChunk(node, from)` up to the
`getNodes` call: if a fetch is already loading, overwrite the queued chunk
with `from`; otherwise clear the queue, set `loading`, and issue
`getNodes(from, cachedItemsLen, cb)` (recorded in the fetch log and in
`inFlight`).  The `node` argument is always the instance's container and is
dropped from the model. -/
def renderChunk (s : VListState) (f : Nat) : VListState × List (Nat × Nat) :=
  if s.loading then
    ({ s with nextChunk := some f }, [])
  else
    ({ s with nextChunk := none, loading := true, inFlight := s.inFlight ++ [f] },
      [(f, s.cachedItemsLen)])

/-- Lines 122-143, the `getNodes` completion callback for the oldest
outstanding fetch (whose `from` is the head of `inFlight`): update the total
row count, build the fragment of `numItems` fresh rows at indices
`from + i`, hide and mark every previously mounted row, append the fragment,
clear `loading`, and re-run `_renderChunk` for a queued chunk if any.
With no fetch outstanding the callback cannot fire (no-op). -/
def fetchComplete (s : VListState) (numItems newTotalRows : Nat) :
    VListState × List (Nat × Nat) :=
  match s.inFlight with
  | [] => (s, [])
  | f :: rest =>
    let s1 := updateTotalRows s newTotalRows
    let fragment := (List.range numItems).map (fun i => createRow s1 (f + i))
    let s2 := { s1 with rows := s1.rows.map markObsolete ++ fragment,
                        loading := false, inFlight := rest }
    match s2.nextChunk with
    | some f2 => renderChunk s2 f2
    | none => (s2, [])

/-- The logical indices of the live (non-obsolete) mounted row elements. -/
def liveIndices (s : VListState) : List Nat :=
  (s.rows.filter (fun r => !r.dataRm)).map (fun r => r.index)

/-- The whole-instance state: the `VListState` plus the constructor's
closure variables (`lastRepaintY`, `lastScrolled`, `screenItemsLen`,
`maxBuffer`) and the container's style strings. -/
structure SysState where
  vl : VListState
  containerWidth : String
  containerHeight : String
  screenItemsLen : Nat
  maxBuffer : Nat
  lastRepaintY : Option Nat
  lastScrolled : Nat
deriving DecidableEq

/-- Construction configuration: `w` may be omitted (`undefined`); `h` and
`itemHeight` are the numeric fields the windowing arithmetic reads
(an absent `h` would poison that arithmetic with `NaN` in JavaScript and is
outside every claim; its style string is still computed by `jsDimStyle`). -/
structure VConfig where
  w : Option Nat
  h : Nat
  itemHeight : Nat
deriving DecidableEq

/-- Lines 32-57 and 85, the `VirtualList(config)` constructor: container and
scroller creation, `screenItemsLen = Math.ceil(config.h / itemHeight)`,
`cachedItemsLen = screenItemsLen * 3`, the immediate
`_renderChunk(container, 0)`, `maxBuffer = screenItemsLen * itemHeight`,
`lastRepaintY` undefined and `lastScrolled = 0`.  Returns the constructed
state together with the fetch log of construction. -/
def VirtualList (c : VConfig) : SysState × List (Nat × Nat) :=
  let screenItemsLen := ceilDiv c.h c.itemHeight
  let s0 : VListState :=
    { itemHeight := c.itemHeight, cachedItemsLen := screenItemsLen * 3,
      loading := false, nextChunk := none, totalRows := 0, scrollerHeight := 0,
      rows := [], inFlight := [] }
  let r := renderChunk s0 0
  ({ vl := r.1,
     containerWidth := jsDimStyle c.w,
     containerHeight := jsDimStyle (some c.h),
     screenItemsLen := screenItemsLen,
     maxBuffer := screenItemsLen * c.itemHeight,
     lastRepaintY := none,
     lastScrolled := 0 }, r.2)

/-- Lines 75-76: `parseInt(scrollTop / itemHeight) - screenItemsLen`,
clamped below by `0` (`first < 0 ? 0 : first`). -/
def scrollFrom (itemHeight screenItemsLen scrollTop : Nat) : Nat :=
  let first : Int := ((scrollTop / itemHeight : Nat) : Int) - (screenItemsLen : Int)
  if first < 0 then 0 else first.toNat

/-- Lines 72-82, the debounced body of `onScroll` firing at time `now` with
the observed `scrollTop`: repaint when `lastRepaintY` is falsy or the offset
moved by more than `maxBuffer`; always record `lastScrolled = now`. -/
def onScrollCheck (sys : SysState) (scrollTop now : Nat) :
    SysState × List (Nat × Nat) :=
  if jsFalsy sys.lastRepaintY || absDiff scrollTop (sys.lastRepaintY.getD 0) > sys.maxBuffer then
    let r := renderChunk sys.vl (scrollFrom sys.vl.itemHeight sys.screenItemsLen scrollTop)
    ({ sys with vl := r.1, lastRepaintY := some scrollTop, lastScrolled := now }, r.2)
  else
    ({ sys with lastScrolled := now }, [])

/-- Lines 61-68, one tick of `rmNodeInterval` at time `now`: when more than
100ms have passed since the last scroll activity, remove every element with
`data-rm="1"` from the container. -/
def rmNodeTick (sys : SysState) (now : Nat) : SysState :=
  if now - sys.lastScrolled > 100 then
    { sys with vl := { sys.vl with rows := sys.vl.rows.filter (fun r => !r.dataRm) } }
  else
    sys

/-- The externally observable events of one list instance: a direct
`_renderChunk` window request, a data-source fetch completion, a debounced
scroll check, and a reaper interval tick. -/
inductive Event where
  | render (f : Nat)
  | complete (numItems newTotalRows : Nat)
  | scrollCheck (scrollTop now : Nat)
  | reapTick (now : Nat)
deriving DecidableEq

/-- One event step of the whole instance, returning the fetches it issues. -/
def stepSys (sys : SysState) : Event → SysState × List (Nat × Nat)
  | .render f =>
    let r := renderChunk sys.vl f
    ({ sys with vl := r.1 }, r.2)
  | .complete n t =>
    let r := fetchComplete sys.vl n t
    ({ sys with vl := r.1 }, r.2)
  | .scrollCheck scrollTop now => onScrollCheck sys scrollTop now
  | .reapTick now => (rmNodeTick sys now, [])

/-- Run a sequence of events, accumulating the issued fetches in order. -/
def runEvents (sys : SysState) : List Event → SysState × List (Nat × Nat)
  | [] => (sys, [])
  | e :: es =>
    let r := stepSys sys e
    let r2 := runEvents r.1 es
    (r2.1, r.2 ++ r2.2)

/-- The scheduler invariant: the number of outstanding fetches is `1`
exactly when `loading` is set (and `0` otherwise), and a chunk is queued
only while loading. -/
def SchedInv (s : VListState) : Prop :=
  s.inFlight.length = (if s.loading then 1 else 0) ∧
  (s.nextChunk.isSome → s.loading = true)

instance (s : VListState) : Decidable (SchedInv s) := by
  unfold SchedInv; infer_instance

theorem schedInv_renderChunk {s : VListState} (f : Nat) (h : SchedInv s) :
    SchedInv (renderChunk s f).1 := by
  obtain ⟨h1, h2⟩ := h
  by_cases hl : s.loading
  · simp [renderChunk, hl, SchedInv, h1]
  · simp only [Bool.not_eq_true] at hl
    simp [renderChunk, hl, SchedInv, h1]

theorem schedInv_fetchComplete {s : VListState} (n t : Nat) (h : SchedInv s) :
    SchedInv (fetchComplete s n t).1 := by
  obtain ⟨h1, h2⟩ := h
  match hin : s.inFlight with
  | [] =>
    have heq : (fetchComplete s n t).1 = s := by simp [fetchComplete, hin]
    rw [heq]
    exact ⟨h1, h2⟩
  | f :: rest =>
    rw [hin] at h1
    have hl : s.loading = true := by
      by_contra hl
      simp only [Bool.not_eq_true] at hl
      simp [hl] at h1
    have hrest : rest = [] := by
      rw [hl] at h1
      simpa using h1
    cases hnc : s.nextChunk with
    | none => simp [fetchComplete, hin, hnc, SchedInv, hrest, updateTotalRows]
    | some f2 =>
      simp [fetchComplete, hin, hnc, SchedInv, hrest, updateTotalRows, renderChunk]

theorem schedInv_stepSys {sys : SysState} (e : Event) (h : SchedInv sys.vl) :
    SchedInv (stepSys sys e).1.vl := by
  cases e with
  | render f => exact schedInv_renderChunk f h
  | complete n t => exact schedInv_fetchComplete n t h
  | scrollCheck scrollTop now =>
    show SchedInv (onScrollCheck sys scrollTop now).1.vl
    unfold onScrollCheck
    split
    · exact schedInv_renderChunk _ h
    · exact h
  | reapTick now =>
    show SchedInv (rmNodeTick sys now).vl
    unfold rmNodeTick
    split
    · exact h
    · exact h

theorem schedInv_runEvents {sys : SysState} (events : List Event) (h : SchedInv sys.vl) :
    SchedInv (runEvents sys events).1.vl := by
  induction events generalizing sys with
  | nil => exact h
  | cons e es ih => exact ih (schedInv_stepSys e h)

theorem schedInv_construct (c : VConfig) : SchedInv (VirtualList c).1.vl := by
  simp [VirtualList, renderChunk, SchedInv]

theorem renderChunk_cachedItemsLen (s : VListState) (f : Nat) :
    (renderChunk s f).1.cachedItemsLen = s.cachedItemsLen := by
  unfold renderChunk
  split <;> rfl

theorem renderChunk_fetches (s : VListState) (f : Nat) :
    ∀ p ∈ (renderChunk s f).2, p.2 = s.cachedItemsLen := by
  unfold renderChunk
  split <;> simp

theorem fetchComplete_cachedItemsLen (s : VListState) (n t : Nat) :
    (fetchComplete s n t).1.cachedItemsLen = s.cachedItemsLen := by
  match hin : s.inFlight with
  | [] => simp [fetchComplete, hin]
  | f :: rest =>
    cases hnc : s.nextChunk <;>
      simp [fetchComplete, hin, hnc, updateTotalRows, renderChunk]

theorem fetchComplete_fetches (s : VListState) (n t : Nat) :
    ∀ p ∈ (fetchComplete s n t).2, p.2 = s.cachedItemsLen := by
  match hin : s.inFlight with
  | [] => simp [fetchComplete, hin]
  | f :: rest =>
    cases hnc : s.nextChunk <;>
      simp [fetchComplete, hin, hnc, updateTotalRows, renderChunk]

theorem stepSys_cachedItemsLen (sys : SysState) (e : Event) :
    (stepSys sys e).1.vl.cachedItemsLen = sys.vl.cachedItemsLen := by
  cases e with
  | render f => exact renderChunk_cachedItemsLen sys.vl f
  | complete n t => exact fetchComplete_cachedItemsLen sys.vl n t
  | scrollCheck scrollTop now =>
    show (onScrollCheck sys scrollTop now).1.vl.cachedItemsLen = _
    unfold onScrollCheck
    split
    · exact renderChunk_cachedItemsLen _ _
    · rfl
  | reapTick now =>
    show (rmNodeTick sys now).vl.cachedItemsLen = _
    unfold rmNodeTick
    split <;> rfl

theorem stepSys_fetches (sys : SysState) (e : Event) :
    ∀ p ∈ (stepSys sys e).2, p.2 = sys.vl.cachedItemsLen := by
  cases e with
  | render f => exact renderChunk_fetches sys.vl f
  | complete n t => exact fetchComplete_fetches sys.vl n t
  | scrollCheck scrollTop now =>
    show ∀ p ∈ (onScrollCheck sys scrollTop now).2, p.2 = sys.vl.cachedItemsLen
    unfold onScrollCheck
    split
    · exact renderChunk_fetches _ _
    · simp
  | reapTick now =>
    show ∀ p ∈ ([] : List (Nat × Nat)), p.2 = sys.vl.cachedItemsLen
    simp

theorem runEvents_cachedItemsLen (sys : SysState) (events : List Event) :
    (runEvents sys events).1.vl.cachedItemsLen = sys.vl.cachedItemsLen := by
  induction events generalizing sys with
  | nil => rfl
  | cons e es ih =>
    show (runEvents (stepSys sys e).1 es).1.vl.cachedItemsLen = _
    rw [ih, stepSys_cachedItemsLen]

theorem runEvents_fetches (sys : SysState) (events : List Event) :
    ∀ p ∈ (runEvents sys events).2, p.2 = sys.vl.cachedItemsLen := by
  induction events generalizing sys with
  | nil => simp [runEvents]
  | cons e es ih =>
    intro p hp
    have hsplit :
        (runEvents sys (e :: es)).2 =
          (stepSys sys e).2 ++ (runEvents (stepSys sys e).1 es).2 := rfl
    rw [hsplit, List.mem_append] at hp
    cases hp with
    | inl hmem => exact stepSys_fetches sys e p hmem
    | inr hmem =>
      have h := ih (stepSys sys e).1 p hmem
      rw [stepSys_cachedItemsLen] at h
      exact h

/-- Idle instance used to instantiate hypotheses at concrete inputs:
`itemHeight=20`, a completed fetch of 1000 total rows, nothing mounted. -/
def vlIdle : VListState :=
  { itemHeight := 20, cachedItemsLen := 30, loading := false, nextChunk := none,
    totalRows := 1000, scrollerHeight := 20000, rows := [], inFlight := [] }

/-- Loading instance (one fetch outstanding) used for concrete instantiation. -/
def vlLoading : VListState :=
  { itemHeight := 20, cachedItemsLen := 30, loading := true, nextChunk := none,
    totalRows := 0, scrollerHeight := 0, rows := [], inFlight := [0] }

/-- Concrete whole-instance state with an idle scheduler. -/
def sysIdle : SysState :=
  { vl := vlIdle, containerWidth := "100px", containerHeight := "200px",
    screenItemsLen := 10, maxBuffer := 200, lastRepaintY := none, lastScrolled := 0 }

/-- C1: at most one data-source fetch is in flight at any time.  After any
sequence of window requests, fetch completions, debounced scroll checks and
reaper ticks from construction, the list of outstanding `getNodes` calls has
length at most one; and a `_renderChunk` request arriving while `loading` is
set issues no `getNodes` call at all. -/
theorem c1_at_most_one_fetch_in_flight (c : VConfig) (events : List Event) :
    (runEvents (VirtualList c).1 events).1.vl.inFlight.length ≤ 1 ∧
    ∀ s : VListState, ∀ f : Nat, s.loading = true → (renderChunk s f).2 = [] := by
  constructor
  · have h := schedInv_runEvents events (schedInv_construct c)
    rw [h.1]
    split <;> simp
  · intro s f hl
    simp [renderChunk, hl]

theorem c1_witness :
    (runEvents (VirtualList ⟨none, 200, 20⟩).1
      [Event.render 240, Event.complete 30 1000]).1.vl.inFlight.length ≤ 1 ∧
    (renderChunk vlLoading 5).2 = [] :=
  ⟨(c1_at_most_one_fetch_in_flight ⟨none, 200, 20⟩
      [Event.render 240, Event.complete 30 1000]).1,
   (c1_at_most_one_fetch_in_flight ⟨none, 200, 20⟩ []).2 vlLoading 5 rfl⟩

/-- C2: three `_renderChunk` window requests arriving before the first fetch
completes issue exactly two `getNodes` fetches in total: the first request's
in-flight one, then (on completion) one for the last-requested window; the
middle request is overwritten last-writer-wins and never fetched. -/
theorem c2_three_requests_two_fetches (sys : SysState) (f1 f2 f3 n t : Nat)
    (hl : sys.vl.loading = false) (_hnc : sys.vl.nextChunk = none)
    (hif : sys.vl.inFlight = []) :
    (runEvents sys [Event.render f1, Event.render f2, Event.render f3,
      Event.complete n t]).2 =
      [(f1, sys.vl.cachedItemsLen), (f3, sys.vl.cachedItemsLen)] := by
  simp [runEvents, stepSys, renderChunk, fetchComplete, updateTotalRows, hl, hif]

theorem c2_witness :
    (runEvents sysIdle [Event.render 3, Event.render 4, Event.render 7,
      Event.complete 30 1000]).2 = [(3, 30), (7, 30)] :=
  c2_three_requests_two_fetches sysIdle 3 4 7 30 1000 rfl rfl rfl

/-- C4: `updateTotalRows N` sets the scroller spacer height to exactly
`itemHeight * N`, stores `N` as the total row count, and calling it a second
time with the same `N` leaves the state identical. -/
theorem c4_updateTotalRows_idempotent (s : VListState) (N : Nat) :
    (updateTotalRows s N).scrollerHeight = s.itemHeight * N ∧
    (updateTotalRows s N).totalRows = N ∧
    updateTotalRows (updateTotalRows s N) N = updateTotalRows s N :=
  ⟨rfl, rfl, rfl⟩

/-- C5: every issued fetch requests exactly `cachedItemsLen`, which equals
`3 * ceil(h / itemHeight)`; construction immediately issues
`getNodes(0, cachedItemsLen, cb)`; with `itemHeight = 20` and viewport
height `200`, the initial call is `getNodes(0, 30, cb)`. -/
theorem c5_fetch_size_and_initial_request (c : VConfig) (events : List Event) :
    (VirtualList c).2 = [(0, 3 * ceilDiv c.h c.itemHeight)] ∧
    (∀ p ∈ (runEvents (VirtualList c).1 events).2,
      p.2 = 3 * ceilDiv c.h c.itemHeight) ∧
    (VirtualList ⟨none, 200, 20⟩).2 = [(0, 30)] := by
  refine ⟨?_, ?_, by decide⟩
  · simp [VirtualList, renderChunk, Nat.mul_comm]
  · intro p hp
    have h := runEvents_fetches (VirtualList c).1 events p hp
    rw [h]
    show (VirtualList c).1.vl.cachedItemsLen = _
    simp [VirtualList, renderChunk, Nat.mul_comm]

theorem c5_witness :
    ((240, 30) : Nat × Nat).2 = 3 * ceilDiv 200 20 :=
  (c5_fetch_size_and_initial_request ⟨none, 200, 20⟩
    [Event.complete 30 1000, Event.render 240]).2.1 (240, 30) (by decide)

theorem renderChunk_rows (s : VListState) (f : Nat) :
    (renderChunk s f).1.rows = s.rows := by
  unfold renderChunk
  split <;> rfl

theorem fetchComplete_rows {s : VListState} {f : Nat} {rest : List Nat}
    (hin : s.inFlight = f :: rest) (n t : Nat) :
    (fetchComplete s n t).1.rows =
      s.rows.map markObsolete ++
        (List.range n).map (fun i => createRow (updateTotalRows s t) (f + i)) := by
  cases hnc : s.nextChunk <;>
    simp [fetchComplete, hin, hnc, updateTotalRows, renderChunk]

theorem filter_live_map_markObsolete (l : List RowElem) :
    (l.map markObsolete).filter (fun r => !r.dataRm) = [] := by
  induction l with
  | nil => rfl
  | cons a l ih => simp [markObsolete, ih]

/-- C3: after a fetch completion for the outstanding window starting at `f`
with `n ≤ cachedItemsLen` returned items, every previously mounted row
element (the children following the scroller spacer) is flagged obsolete
(`data-rm="1"`) and hidden, and the live (non-obsolete) row indices are
exactly `f, f+1, ..., f+n-1`: duplicate-free and contained in the completed
fetch's requested range `[f, f + cachedItemsLen)`. -/
theorem c3_live_indices_after_completion (s : VListState) (f : Nat)
    (rest : List Nat) (n t : Nat) (hin : s.inFlight = f :: rest)
    (hn : n ≤ s.cachedItemsLen) :
    (∀ r ∈ ((fetchComplete s n t).1.rows.take s.rows.length),
      r.dataRm = true ∧ r.hidden = true) ∧
    liveIndices (fetchComplete s n t).1 = List.range' f n ∧
    (liveIndices (fetchComplete s n t).1).Nodup ∧
    (∀ i ∈ liveIndices (fetchComplete s n t).1, f ≤ i ∧ i < f + s.cachedItemsLen) := by
  have hrows := fetchComplete_rows hin n t
  have hlive : liveIndices (fetchComplete s n t).1 = List.range' f n := by
    unfold liveIndices
    rw [hrows, List.filter_append, filter_live_map_markObsolete, List.nil_append]
    have hall : ∀ r ∈ (List.range n).map
        (fun i => createRow (updateTotalRows s t) (f + i)), (!r.dataRm) = true := by
      intro r hr
      rw [List.mem_map] at hr
      obtain ⟨i, _, rfl⟩ := hr
      rfl
    rw [List.filter_eq_self.mpr hall, List.map_map, List.range'_eq_map_range]
    rfl
  refine ⟨?_, hlive, ?_, ?_⟩
  · intro r hr
    rw [hrows] at hr
    have hlen : s.rows.length = (s.rows.map markObsolete).length := by
      rw [List.length_map]
    rw [hlen, List.take_left, List.mem_map] at hr
    obtain ⟨r0, _, rfl⟩ := hr
    exact ⟨rfl, rfl⟩
  · rw [hlive]
    exact List.nodup_range' f n
  · intro i hi
    rw [hlive, List.mem_range'_1] at hi
    omega

theorem c3_witness :
    liveIndices (fetchComplete
      { itemHeight := 20, cachedItemsLen := 30, loading := true, nextChunk := none,
        totalRows := 0, scrollerHeight := 0,
        rows := [{ index := 0, top := 0, hidden := false, dataRm := false },
                 { index := 1, top := 20, hidden := false, dataRm := false }],
        inFlight := [5] } 3 100).1 = List.range' 5 3 :=
  (c3_live_indices_after_completion _ 5 [] 3 100 rfl (by decide)).2.1

/-- C10: a pending chunk is only ever remembered while a fetch is in flight:
after any event sequence from construction, `nextChunk` is `some` only if
`loading` is set; and starting a fetch (a `_renderChunk` call in the idle
state) clears the pending slot. -/
theorem c10_pending_only_while_loading (c : VConfig) (events : List Event) :
    ((runEvents (VirtualList c).1 events).1.vl.nextChunk.isSome →
      (runEvents (VirtualList c).1 events).1.vl.loading = true) ∧
    ∀ s : VListState, ∀ f : Nat, s.loading = false →
      (renderChunk s f).1.nextChunk = none := by
  constructor
  · exact (schedInv_runEvents events (schedInv_construct c)).2
  · intro s f hl
    simp [renderChunk, hl]

theorem c10_witness :
    (runEvents (VirtualList ⟨none, 200, 20⟩).1 [Event.render 240]).1.vl.loading = true ∧
    (renderChunk vlIdle 7).1.nextChunk = none :=
  ⟨(c10_pending_only_while_loading ⟨none, 200, 20⟩ [Event.render 240]).1 (by decide),
   (c10_pending_only_while_loading ⟨none, 200, 20⟩ []).2 vlIdle 7 rfl⟩

theorem scrollFrom_eq_max (itemHeight screenItemsLen scrollTop : Nat) :
    scrollFrom itemHeight screenItemsLen scrollTop =
      (max 0 (((scrollTop / itemHeight : Nat) : Int) - (screenItemsLen : Int))).toNat := by
  simp only [scrollFrom]
  split <;> omega

/-- C6: when a debounced scroll check decides to repaint, the window request
passed to `_renderChunk` starts at
`max(0, floor(scrollTop / itemHeight) - screenItemsLen)`, where
`screenItemsLen = ceil(viewport height / itemHeight)` at construction. -/
theorem c6_scroll_window_start (sys : SysState) (scrollTop now : Nat)
    (hrepaint : jsFalsy sys.lastRepaintY = true ∨
      absDiff scrollTop (sys.lastRepaintY.getD 0) > sys.maxBuffer) :
    (onScrollCheck sys scrollTop now).1.vl =
      (renderChunk sys.vl
        ((max 0 (((scrollTop / sys.vl.itemHeight : Nat) : Int) -
          (sys.screenItemsLen : Int))).toNat)).1 ∧
    (onScrollCheck sys scrollTop now).2 =
      (renderChunk sys.vl
        ((max 0 (((scrollTop / sys.vl.itemHeight : Nat) : Int) -
          (sys.screenItemsLen : Int))).toNat)).2 ∧
    ∀ c : VConfig, (VirtualList c).1.screenItemsLen = ceilDiv c.h c.itemHeight := by
  have hcond : (jsFalsy sys.lastRepaintY ||
      decide (absDiff scrollTop (sys.lastRepaintY.getD 0) > sys.maxBuffer)) = true := by
    rcases hrepaint with h | h
    · simp [h]
    · simp [h]
  rw [← scrollFrom_eq_max]
  unfold onScrollCheck
  rw [if_pos hcond]
  exact ⟨rfl, rfl, fun c => rfl⟩

theorem c6_witness : (onScrollCheck sysIdle 5000 777).2 = [(240, 30)] := by
  have h := (c6_scroll_window_start sysIdle 5000 777 (Or.inl rfl)).2.1
  rw [h]
  decide

/-- Scroll state immediately after a debounced repaint was accepted at
scroll position 0: the recorded `lastRepaintY` is the (falsy) number 0. -/
def sysRepaintedAtZero : SysState :=
  { vl := vlIdle, containerWidth := "100px", containerHeight := "200px",
    screenItemsLen := 10, maxBuffer := 200, lastRepaintY := some 0, lastScrolled := 0 }

/-- C7 counterexample: with the last accepted repaint position recorded as
`0`, a debounced check at `scrollTop = 1` has moved only 1px — far below
`maxBuffer = 200` — yet a `getNodes` fetch is issued, because line 74's
`!lastRepaintY` treats the recorded position `0` as never-repainted. -/
theorem c7_counterexample :
    absDiff 1 (sysRepaintedAtZero.lastRepaintY.getD 0) ≤ sysRepaintedAtZero.maxBuffer ∧
    (onScrollCheck sysRepaintedAtZero 1 50).2 = [(0, 30)] ∧
    (onScrollCheck sysRepaintedAtZero 1 50).2 ≠ [] :=
  ⟨by decide, by decide, by decide⟩

/-- C7 (amended): a debounced scroll check whose offset has moved by at most
`maxBuffer` pixels since the last accepted repaint position makes no window
request and issues no fetch — provided the recorded repaint position is
nonzero (a recorded position of 0 is falsy in JavaScript, counts as
never-repainted, and repaints regardless of the movement). -/
theorem c7_small_scroll_no_fetch (sys : SysState) (scrollTop now y : Nat)
    (hy : sys.lastRepaintY = some y) (hy0 : y ≠ 0)
    (hmove : absDiff scrollTop y ≤ sys.maxBuffer) :
    (onScrollCheck sys scrollTop now).2 = [] ∧
    (onScrollCheck sys scrollTop now).1.vl = sys.vl ∧
    (onScrollCheck sys scrollTop now).1.lastRepaintY = sys.lastRepaintY := by
  have hcond : (jsFalsy sys.lastRepaintY ||
      decide (absDiff scrollTop (sys.lastRepaintY.getD 0) > sys.maxBuffer)) = false := by
    rw [hy]
    simp only [jsFalsy, Option.getD_some, Bool.or_eq_false_iff,
      decide_eq_false_iff_not, not_lt]
    exact ⟨by simpa using hy0, hmove⟩
  unfold onScrollCheck
  rw [if_neg (by simp [hcond])]
  exact ⟨rfl, rfl, rfl⟩

/-- Scroll state after an accepted repaint at a nonzero position. -/
def sysRepainted : SysState :=
  { vl := vlIdle, containerWidth := "100px", containerHeight := "200px",
    screenItemsLen := 10, maxBuffer := 200, lastRepaintY := some 300, lastScrolled := 0 }

theorem c7_witness :
    (onScrollCheck sysRepainted 350 900).2 = [] ∧
    (onScrollCheck sysRepainted 350 900).1.vl = sysRepainted.vl ∧
    (onScrollCheck sysRepainted 350 900).1.lastRepaintY = sysRepainted.lastRepaintY :=
  c7_small_scroll_no_fetch sysRepainted 350 900 300 rfl (by decide) (by decide)

/-- C8: a reaper tick firing after the quiet threshold (more than 100ms
since the last scroll activity) removes exactly the row elements flagged
`data-rm="1"` and changes nothing else: the surviving children are precisely
the non-obsolete rows, unmodified and in order, and the scroller spacer and
the rest of the instance state are untouched. -/
theorem c8_reaper_removes_obsolete (sys : SysState) (now : Nat)
    (hquiet : now - sys.lastScrolled > 100) :
    (rmNodeTick sys now).vl.rows = sys.vl.rows.filter (fun r => !r.dataRm) ∧
    (∀ r ∈ (rmNodeTick sys now).vl.rows, r.dataRm = false) ∧
    (∀ r ∈ sys.vl.rows, r.dataRm = false → r ∈ (rmNodeTick sys now).vl.rows) ∧
    (rmNodeTick sys now).vl.scrollerHeight = sys.vl.scrollerHeight ∧
    (rmNodeTick sys now).vl.totalRows = sys.vl.totalRows ∧
    (rmNodeTick sys now).vl.loading = sys.vl.loading ∧
    (rmNodeTick sys now).vl.nextChunk = sys.vl.nextChunk ∧
    (rmNodeTick sys now).lastRepaintY = sys.lastRepaintY := by
  have hrm : rmNodeTick sys now =
      { sys with vl := { sys.vl with rows := sys.vl.rows.filter (fun r => !r.dataRm) } } := by
    unfold rmNodeTick
    rw [if_pos hquiet]
  rw [hrm]
  refine ⟨rfl, ?_, ?_, rfl, rfl, rfl, rfl, rfl⟩
  · intro r hr
    rw [List.mem_filter] at hr
    simpa using hr.2
  · intro r hr hrm0
    rw [List.mem_filter]
    exact ⟨hr, by simp [hrm0]⟩

/-- System state with one obsolete and one live mounted row. -/
def sysWithObsolete : SysState :=
  { vl := { itemHeight := 20, cachedItemsLen := 30, loading := false, nextChunk := none,
            totalRows := 1000, scrollerHeight := 20000,
            rows := [{ index := 0, top := 0, hidden := true, dataRm := true },
                     { index := 1, top := 20, hidden := false, dataRm := false }],
            inFlight := [] },
    containerWidth := "100px", containerHeight := "200px",
    screenItemsLen := 10, maxBuffer := 200, lastRepaintY := some 0, lastScrolled := 0 }

theorem c8_witness :
    (rmNodeTick sysWithObsolete 200).vl.rows =
      [{ index := 1, top := 20, hidden := false, dataRm := false }] := by
  have h := (c8_reaper_removes_obsolete sysWithObsolete 200 (by decide)).1
  rw [h]
  decide

/-- C9 (the code's behavior at the failing input): with a config object
present and `w` omitted, line 33 computes `undefined + 'px' =
"undefinedpx"`, a truthy string, so the `|| '100%'` fallback never applies:
the container width becomes the invalid style string `"undefinedpx"`,
not `"100%"` (and symmetrically for `h` on line 34). -/
theorem c9_omitted_width_is_undefinedpx :
    jsDimStyle none = "undefinedpx" ∧
    jsDimStyle none ≠ "100%" ∧
    (VirtualList ⟨none, 200, 20⟩).1.containerWidth = "undefinedpx" :=
  ⟨by decide, by decide, by decide⟩

end VList
